import Mathlib

/-!
Shallow embedding of the question-generation core of the test-maker backend
(`src/main.py`): the Bloom taxonomy table, MCQ and short-answer question
synthesis, batch generation, test assembly, and the request-boundary
validation performed by the pydantic `GenerateRequest` model.

Randomness (Python `random.choice` / `random.shuffle`) is modelled by an
explicit tape of natural numbers threaded through the generators:
`random.choice l` consumes one tape entry `n` and returns `l[n % len l]`;
`random.shuffle l` consumes one tape entry and applies the permutation of
`l` it indexes.  Quantifying over all tapes quantifies over all random
outcomes.
-/

namespace TestMaker

/-- Random tape: the sequence of raw draws consumed by the generators. -/
abbrev Tape := List Nat

/-- Consume one draw from the tape (0 if exhausted). -/
def draw : Tape → Nat × Tape
  | [] => (0, [])
  | n :: r => (n, r)

/-- Model of Python `random.choice l`: a fresh draw `n` picks `l[n % len l]`. -/
def randChoice (l : List α) (dflt : α) (t : Tape) : α × Tape :=
  let p := draw t
  (l.getD (p.1 % l.length) dflt, p.2)

/-- Model of Python `random.shuffle l`: a fresh draw selects one of the
permutations of `l` (indexing into `l.permutations`). -/
def randShuffle (l : List α) (t : Tape) : List α × Tape :=
  let p := draw t
  (l.permutations.getD (p.1 % l.permutations.length) l, p.2)

/-- Embedding of the pydantic `Question` model of `src/main.py`. -/
structure Question where
  text : String
  type : String := "mcq"
  options : Option (List String) := none
  correct_index : Option Nat := none
  answer_text : Option String := none
  points : Nat := 1
  bloom_level : Option String := none
deriving DecidableEq

/-- Embedding of the pydantic `GenerateRequest` model (post-validation values). -/
structure GenerateRequest where
  topic : String
  grade_level : Option String := none
  num_questions : Nat := 5
  question_type : String := "mcq"
deriving DecidableEq

/-- Embedding of the pydantic `TestModel` model of `src/main.py`. -/
structure TestModel where
  title : String
  subject : Option String := none
  grade_level : Option String := none
  description : Option String := none
  questions : List Question := []
  duration_minutes : Option Nat := some 30
  tags : List String := []
deriving DecidableEq

/-- The six Bloom taxonomy levels (`BLOOM_LEVELS` in the source). -/
def BLOOM_LEVELS : List String :=
  ["Remember", "Understand", "Apply", "Analyze", "Evaluate", "Create"]

/-- The verb table local to `generate_mcq` (the `verbs` dict in the source);
lookup of a key outside the six levels cannot happen in the source. -/
def verbs : String → List String
  | "Remember" => ["define", "list", "identify", "recall"]
  | "Understand" => ["explain", "describe", "summarize", "classify"]
  | "Apply" => ["use", "demonstrate", "solve", "compute"]
  | "Analyze" => ["compare", "distinguish", "analyze", "differentiate"]
  | "Evaluate" => ["assess", "justify", "critique", "evaluate"]
  | "Create" => ["design", "compose", "develop", "formulate"]
  | _ => []

/-- The "correct" option string constructed in `generate_mcq`, by level group
(the source's `if bloom in ["Remember", "Understand"]` branch). -/
def mcqCorrect (topic verb bloom : String) : String :=
  if bloom ∈ ["Remember", "Understand"] then
    "A concise fact about " ++ topic
  else
    "An example that shows how to " ++ verb ++ " using " ++ topic

/-- The three distractor strings constructed in `generate_mcq`, by level group. -/
def mcqDistractors (topic bloom : String) : List String :=
  if bloom ∈ ["Remember", "Understand"] then
    ["An unrelated idea about " ++ topic,
     "A partially correct idea about " ++ topic,
     "A common misconception about " ++ topic]
  else
    ["An example unrelated to " ++ topic,
     "Incorrect application of " ++ topic,
     "Vague statement without using " ++ topic]

/-- Embedding of `generate_mcq` (src/main.py lines 89-130).  The `grade`
argument is accepted, as in the source, and never used. -/
def generate_mcq (topic : String) (grade : Option String) (idx : Nat) (t : Tape) :
    Question × Tape :=
  let pb := randChoice BLOOM_LEVELS "Remember" t
  let bloom := pb.1
  let pv := randChoice (verbs bloom) "" pb.2
  let verb := pv.1
  let stem :=
    if bloom ∈ ["Apply", "Analyze", "Evaluate", "Create"] then
      "Q" ++ toString (idx + 1) ++ ". In the context of " ++ topic ++ ", " ++ verb
        ++ " the correct option."
    else
      "Q" ++ toString (idx + 1) ++ ". Which of the following best relates to " ++ topic ++ "?"
  let correct := mcqCorrect topic verb bloom
  let distractors := mcqDistractors topic bloom
  let ps := randShuffle (distractors ++ [correct]) pv.2
  let options := ps.1
  let correct_index := options.indexOf correct
  ({ text := stem, type := "mcq", options := some options,
     correct_index := some correct_index, points := 1, bloom_level := some bloom }, ps.2)

/-- Embedding of `generate_short` (src/main.py lines 133-142). -/
def generate_short (topic : String) (grade : Option String) (idx : Nat) (t : Tape) :
    Question × Tape :=
  let pb := randChoice BLOOM_LEVELS "Remember" t
  let stem := "Q" ++ toString (idx + 1) ++ ". Briefly explain the following about " ++ topic ++ ":"
  ({ text := stem, type := "short",
     answer_text := some ("A 2-3 sentence explanation referencing " ++ topic ++ "."),
     points := 2, bloom_level := some pb.1 }, pb.2)

/-- One pass of the batch loop of `generate_questions`: generates the
questions for ordinals `i, i+1, ..., i+k-1`, threading the tape. -/
def genLoop (req : GenerateRequest) : Nat → Nat → Tape → List Question × Tape
  | _, 0, t => ([], t)
  | i, k + 1, t =>
    let pk :=
      if req.question_type == "mixed" then randChoice ["mcq", "short"] "mcq" t
      else (req.question_type, t)
    let pq :=
      if pk.1 == "short" then generate_short req.topic req.grade_level i pk.2
      else generate_mcq req.topic req.grade_level i pk.2
    let rest := genLoop req (i + 1) k pq.2
    (pq.1 :: rest.1, rest.2)

/-- Embedding of `generate_questions` (src/main.py lines 145-155). -/
def generate_questions (req : GenerateRequest) (t : Tape) : List Question × Tape :=
  genLoop req 0 req.num_questions t

/-- Characterwise model of Python `str.title()` (with ASCII letters as the
cased characters): an alphabetic character is uppercased when the previous
character is not alphabetic and lowercased otherwise. -/
def pyTitleAux : List Char → Bool → List Char
  | [], _ => []
  | c :: cs, prevCased =>
    if c.isAlpha then
      (if prevCased then c.toLower else c.toUpper) :: pyTitleAux cs true
    else
      c :: pyTitleAux cs false

/-- Model of Python `str.title()` on a whole string. -/
def pyTitle (s : String) : String := ⟨pyTitleAux s.data false⟩

/-- Embedding of the `/api/tests/generate` handler `generate_test`
(src/main.py lines 201-214): assembles the test from the request and the
freshly generated questions. -/
def generate_test (req : GenerateRequest) (t : Tape) : TestModel × Tape :=
  let title := pyTitle req.topic ++ " - " ++ toString req.num_questions ++ " Question Test"
  let pq := generate_questions req t
  ({ title := title, subject := some req.topic, grade_level := req.grade_level,
     description := some ("Auto-generated " ++ req.question_type ++ " test about " ++ req.topic),
     questions := pq.1,
     duration_minutes := some (max 10 (req.num_questions * 2)),
     tags := ["auto", "generated", req.topic] }, pq.2)

/-- Embedding of the validation performed by the pydantic `GenerateRequest`
model (src/main.py lines 71-75): `topic` is a required string but any string
is accepted, the empty string included; `grade_level` is optional;
`num_questions` carries `ge=1, le=50`; `question_type` is an arbitrary
string — the `mcq|short|mixed` enumeration appears only in the field
description and is not enforced. -/
def parseGenerateRequest (topic : String) (grade_level : Option String)
    (num_questions : Int) (question_type : String) : Option GenerateRequest :=
  if 1 ≤ num_questions ∧ num_questions ≤ 50 then
    some { topic := topic, grade_level := grade_level,
           num_questions := num_questions.toNat, question_type := question_type }
  else
    none

/-! ### Helper lemmas -/

/-- An element picked by `getD` at a reduced index out of a non-empty list is
a member of the list. -/
theorem getD_mod_mem (l : List α) (h : l ≠ []) (n : Nat) (d : α) :
    l.getD (n % l.length) d ∈ l := by
  have hlen : 0 < l.length := List.length_pos.mpr h
  have hm : n % l.length < l.length := Nat.mod_lt _ hlen
  rw [List.getD_eq_getElem?_getD, List.getElem?_eq_getElem hm]
  exact List.getElem_mem _

/-- The value of `randChoice` on a non-empty list is a member of the list. -/
theorem randChoice_mem (l : List α) (h : l ≠ []) (d : α) (t : Tape) :
    (randChoice l d t).1 ∈ l :=
  getD_mod_mem l h _ d

/-- The result of `randShuffle` is a permutation of its input. -/
theorem randShuffle_perm (l : List α) (t : Tape) : List.Perm (randShuffle l t).1 l := by
  apply List.mem_permutations.mp
  have hne : l.permutations ≠ [] := by
    apply List.ne_nil_of_length_pos
    rw [List.length_permutations]
    exact Nat.factorial_pos _
  exact getD_mod_mem l.permutations hne _ l

/-- Two character lists differing below both prefix lengths stay different
after appending arbitrary suffixes. -/
theorem append_ne_of_diff {p₁ p₂ s₁ s₂ : List Char} (i : Nat)
    (h₁ : i < p₁.length) (h₂ : i < p₂.length) (hne : p₁[i]? ≠ p₂[i]?) :
    p₁ ++ s₁ ≠ p₂ ++ s₂ := by
  intro he
  apply hne
  have e1 : (p₁ ++ s₁)[i]? = p₁[i]? := List.getElem?_append_left h₁
  have e2 : (p₂ ++ s₂)[i]? = p₂[i]? := List.getElem?_append_left h₂
  rw [← e1, ← e2, he]

/-- String version of `append_ne_of_diff`. -/
theorem str_append_ne_of_diff (p₁ p₂ s₁ s₂ : String) (i : Nat)
    (h₁ : i < p₁.data.length) (h₂ : i < p₂.data.length)
    (hne : p₁.data[i]? ≠ p₂.data[i]?) :
    p₁ ++ s₁ ≠ p₂ ++ s₂ := by
  intro he
  have hd := congrArg String.data he
  rw [String.data_append, String.data_append] at hd
  exact append_ne_of_diff i h₁ h₂ hne hd

/-- A string with a non-empty right component is non-empty. -/
theorem append_ne_empty_of_right (s t : String) (h : t ≠ "") : s ++ t ≠ "" := by
  intro he
  apply h
  have hd := congrArg String.data he
  rw [String.data_append] at hd
  rcases List.append_eq_nil.mp hd with ⟨-, h2⟩
  exact String.ext h2

/-- The verb list of every Bloom level is non-empty. -/
theorem verbs_ne_nil {b : String} (hb : b ∈ BLOOM_LEVELS) : verbs b ≠ [] := by
  simp only [BLOOM_LEVELS, List.mem_cons, List.not_mem_nil, or_false] at hb
  rcases hb with rfl | rfl | rfl | rfl | rfl | rfl <;> decide

/-- There are always exactly three distractors. -/
theorem mcqDistractors_length (topic bloom : String) :
    (mcqDistractors topic bloom).length = 3 := by
  unfold mcqDistractors
  split <;> rfl

/-- The correct option string never coincides with a distractor. -/
theorem mcqCorrect_not_mem_distractors (topic verb bloom : String) :
    mcqCorrect topic verb bloom ∉ mcqDistractors topic bloom := by
  unfold mcqCorrect mcqDistractors
  split
  · intro hmem
    simp only [List.mem_cons, List.not_mem_nil, or_false] at hmem
    rcases hmem with h | h | h
    · exact str_append_ne_of_diff _ _ _ _ 1 (by decide) (by decide) (by decide) h
    · exact str_append_ne_of_diff _ _ _ _ 2 (by decide) (by decide) (by decide) h
    · exact str_append_ne_of_diff _ _ _ _ 4 (by decide) (by decide) (by decide) h
  · intro hmem
    simp only [List.mem_cons, List.not_mem_nil, or_false] at hmem
    rcases hmem with h | h | h
    · rw [String.append_assoc, String.append_assoc] at h
      exact str_append_ne_of_diff _ _ _ _ 11 (by decide) (by decide) (by decide) h
    · rw [String.append_assoc, String.append_assoc] at h
      exact str_append_ne_of_diff _ _ _ _ 0 (by decide) (by decide) (by decide) h
    · rw [String.append_assoc, String.append_assoc] at h
      exact str_append_ne_of_diff _ _ _ _ 0 (by decide) (by decide) (by decide) h

/-- The three distractors are pairwise distinct. -/
theorem mcqDistractors_pairwise (topic bloom : String) :
    (mcqDistractors topic bloom).Pairwise (· ≠ ·) := by
  unfold mcqDistractors
  split
  · refine List.Pairwise.cons ?_ (List.Pairwise.cons ?_ (List.pairwise_singleton _ _))
    · intro b hb
      simp only [List.mem_cons, List.not_mem_nil, or_false] at hb
      rcases hb with rfl | rfl
      · exact str_append_ne_of_diff _ _ _ _ 2 (by decide) (by decide) (by decide)
      · exact str_append_ne_of_diff _ _ _ _ 2 (by decide) (by decide) (by decide)
    · intro b hb
      simp only [List.mem_cons, List.not_mem_nil, or_false] at hb
      rcases hb with rfl
      exact str_append_ne_of_diff _ _ _ _ 2 (by decide) (by decide) (by decide)
  · refine List.Pairwise.cons ?_ (List.Pairwise.cons ?_ (List.pairwise_singleton _ _))
    · intro b hb
      simp only [List.mem_cons, List.not_mem_nil, or_false] at hb
      rcases hb with rfl | rfl
      · exact str_append_ne_of_diff _ _ _ _ 0 (by decide) (by decide) (by decide)
      · exact str_append_ne_of_diff _ _ _ _ 0 (by decide) (by decide) (by decide)
    · intro b hb
      simp only [List.mem_cons, List.not_mem_nil, or_false] at hb
      rcases hb with rfl
      exact str_append_ne_of_diff _ _ _ _ 0 (by decide) (by decide) (by decide)

/-- Full characterization of the question produced by `generate_mcq`:
there is a chosen Bloom level, a verb from its table and a shuffled option
list (a permutation of the three distractors plus the correct option) such
that the result is exactly the assembled record of the source. -/
theorem generate_mcq_spec (topic : String) (grade : Option String) (idx : Nat) (t : Tape) :
    ∃ bloom verb opts,
      bloom ∈ BLOOM_LEVELS ∧ verb ∈ verbs bloom ∧
      List.Perm opts (mcqDistractors topic bloom ++ [mcqCorrect topic verb bloom]) ∧
      (generate_mcq topic grade idx t).1 =
        { text := if bloom ∈ ["Apply", "Analyze", "Evaluate", "Create"] then
              "Q" ++ toString (idx + 1) ++ ". In the context of " ++ topic ++ ", " ++ verb
                ++ " the correct option."
            else
              "Q" ++ toString (idx + 1) ++ ". Which of the following best relates to "
                ++ topic ++ "?",
          type := "mcq", options := some opts,
          correct_index := some (opts.indexOf (mcqCorrect topic verb bloom)),
          answer_text := none, points := 1, bloom_level := some bloom } := by
  refine ⟨(randChoice BLOOM_LEVELS "Remember" t).1,
          (randChoice (verbs (randChoice BLOOM_LEVELS "Remember" t).1) ""
            (randChoice BLOOM_LEVELS "Remember" t).2).1,
          _, ?_, ?_, ?_, rfl⟩
  · exact randChoice_mem _ (by decide) _ _
  · exact randChoice_mem _ (verbs_ne_nil (randChoice_mem _ (by decide) _ _)) _ _
  · exact randShuffle_perm _ _

/-- The MCQ question text always begins with its ordinal marker `Q{idx+1}.`. -/
theorem generate_mcq_marker (topic : String) (grade : Option String) (idx : Nat) (t : Tape) :
    ∃ r, (generate_mcq topic grade idx t).1.text = "Q" ++ toString (idx + 1) ++ "." ++ r := by
  obtain ⟨bloom, verb, opts, -, -, -, heq⟩ := generate_mcq_spec topic grade idx t
  rw [heq]
  by_cases hb : bloom ∈ (["Apply", "Analyze", "Evaluate", "Create"] : List String)
  · refine ⟨" In the context of " ++ topic ++ ", " ++ verb ++ " the correct option.", ?_⟩
    have hsplit : (". In the context of " : String) = "." ++ " In the context of " := by decide
    simp only [if_pos hb]
    rw [hsplit]
    simp only [String.append_assoc]
  · refine ⟨" Which of the following best relates to " ++ topic ++ "?", ?_⟩
    have hsplit : (". Which of the following best relates to " : String)
        = "." ++ " Which of the following best relates to " := by decide
    simp only [if_neg hb]
    rw [hsplit]
    simp only [String.append_assoc]

/-- The short question text always begins with its ordinal marker `Q{idx+1}.`. -/
theorem generate_short_marker (topic : String) (grade : Option String) (idx : Nat) (t : Tape) :
    ∃ r, (generate_short topic grade idx t).1.text = "Q" ++ toString (idx + 1) ++ "." ++ r := by
  refine ⟨" Briefly explain the following about " ++ topic ++ ":", ?_⟩
  have hsplit : (". Briefly explain the following about " : String)
      = "." ++ " Briefly explain the following about " := by decide
  show "Q" ++ toString (idx + 1) ++ ". Briefly explain the following about " ++ topic ++ ":" = _
  rw [hsplit]
  simp only [String.append_assoc]

/-- Shape facts about every MCQ question. -/
theorem generate_mcq_fields (topic : String) (grade : Option String) (idx : Nat) (t : Tape) :
    (generate_mcq topic grade idx t).1.type = "mcq" ∧
    (generate_mcq topic grade idx t).1.points = 1 ∧
    (generate_mcq topic grade idx t).1.answer_text = none ∧
    (generate_mcq topic grade idx t).1.options.isSome = true ∧
    (generate_mcq topic grade idx t).1.correct_index.isSome = true ∧
    ∃ b, (generate_mcq topic grade idx t).1.bloom_level = some b ∧ b ∈ BLOOM_LEVELS := by
  obtain ⟨bloom, verb, opts, hbl, -, -, heq⟩ := generate_mcq_spec topic grade idx t
  rw [heq]
  exact ⟨rfl, rfl, rfl, rfl, rfl, bloom, rfl, hbl⟩

/-- Shape facts about every short question. -/
theorem generate_short_fields (topic : String) (grade : Option String) (idx : Nat) (t : Tape) :
    (generate_short topic grade idx t).1.type = "short" ∧
    (generate_short topic grade idx t).1.points = 2 ∧
    (generate_short topic grade idx t).1.options = none ∧
    (generate_short topic grade idx t).1.correct_index = none ∧
    (generate_short topic grade idx t).1.answer_text
      = some ("A 2-3 sentence explanation referencing " ++ topic ++ ".") ∧
    ∃ b, (generate_short topic grade idx t).1.bloom_level = some b ∧ b ∈ BLOOM_LEVELS := by
  exact ⟨rfl, rfl, rfl, rfl, rfl, (randChoice BLOOM_LEVELS "Remember" t).1, rfl,
    randChoice_mem _ (by decide) _ _⟩

/-- The question type recorded by `generate_mcq` is always `"mcq"`. -/
theorem generate_mcq_type (topic : String) (grade : Option String) (idx : Nat) (t : Tape) :
    (generate_mcq topic grade idx t).1.type = "mcq" := rfl

/-- The question type recorded by `generate_short` is always `"short"`. -/
theorem generate_short_type (topic : String) (grade : Option String) (idx : Nat) (t : Tape) :
    (generate_short topic grade idx t).1.type = "short" := rfl

/-- The batch loop produces exactly `k` questions. -/
theorem genLoop_length (req : GenerateRequest) (i k : Nat) (t : Tape) :
    (genLoop req i k t).1.length = k := by
  induction k generalizing i t with
  | zero => rfl
  | succ k ih => simp only [genLoop, List.length_cons, ih]

/-- Every question of the batch loop output carries the ordinal marker of its
position: the `j`-th question generated starting at ordinal `i` begins with
`Q{i+j+1}.`. -/
theorem genLoop_marker (req : GenerateRequest) :
    ∀ (k i : Nat) (t : Tape) (j : Nat), j < k →
      ∃ q r, (genLoop req i k t).1[j]? = some q ∧
        q.text = "Q" ++ toString (i + j + 1) ++ "." ++ r := by
  intro k
  induction k with
  | zero => intro i t j hj; exact absurd hj (Nat.not_lt_zero j)
  | succ k ih =>
    intro i t j hj
    cases j with
    | zero =>
      simp only [genLoop, List.getElem?_cons_zero, Nat.add_zero]
      split <;> split <;>
        first
        | (obtain ⟨r, hr⟩ := generate_short_marker req.topic req.grade_level i _
           exact ⟨_, r, rfl, hr⟩)
        | (obtain ⟨r, hr⟩ := generate_mcq_marker req.topic req.grade_level i _
           exact ⟨_, r, rfl, hr⟩)
    | succ j =>
      simp only [genLoop, List.getElem?_cons_succ]
      obtain ⟨q, r, hq, ht⟩ := ih (i + 1) _ j (Nat.lt_of_succ_lt_succ hj)
      refine ⟨q, r, hq, ?_⟩
      have harith : i + 1 + j + 1 = i + (j + 1) + 1 := by omega
      rw [harith] at ht
      exact ht

/-- When the request type is neither `"mixed"` nor `"short"`, every question
of the batch is an MCQ (the dispatch falls through to `generate_mcq`). -/
theorem genLoop_all_mcq (req : GenerateRequest) (h1 : req.question_type ≠ "mixed")
    (h2 : req.question_type ≠ "short") :
    ∀ (k i : Nat) (t : Tape) (q : Question), q ∈ (genLoop req i k t).1 → q.type = "mcq" := by
  intro k
  induction k with
  | zero => intro i t q hq; simp [genLoop] at hq
  | succ k ih =>
    intro i t q hq
    have hm : (req.question_type == "mixed") = false := beq_eq_false_iff_ne.mpr h1
    have hs : (req.question_type == "short") = false := beq_eq_false_iff_ne.mpr h2
    simp only [genLoop, hm, Bool.false_eq_true, if_false, hs, List.mem_cons] at hq
    rcases hq with rfl | hq
    · exact generate_mcq_type _ _ _ _
    · exact ih (i + 1) _ q hq

/-- When the request type is `"short"`, every question of the batch is short. -/
theorem genLoop_all_short (req : GenerateRequest) (h : req.question_type = "short") :
    ∀ (k i : Nat) (t : Tape) (q : Question), q ∈ (genLoop req i k t).1 → q.type = "short" := by
  intro k
  induction k with
  | zero => intro i t q hq; simp [genLoop] at hq
  | succ k ih =>
    intro i t q hq
    have hm : (req.question_type == "mixed") = false := by
      rw [h]; decide
    have hs : (req.question_type == "short") = true := by
      rw [h]; decide
    simp only [genLoop, hm, Bool.false_eq_true, if_false, hs, if_true, List.mem_cons] at hq
    rcases hq with rfl | hq
    · exact generate_short_type _ _ _ _
    · exact ih (i + 1) _ q hq

/-- Every question of the batch loop output satisfies the type-discriminated
shape invariant and carries a Bloom level from the table. -/
theorem genLoop_invariant (req : GenerateRequest) :
    ∀ (k i : Nat) (t : Tape) (q : Question), q ∈ (genLoop req i k t).1 →
      ((q.type = "mcq" ∧ q.options.isSome = true ∧ q.correct_index.isSome = true ∧
          q.answer_text = none) ∨
       (q.type = "short" ∧ q.answer_text.isSome = true ∧ q.options = none ∧
          q.correct_index = none)) ∧
      ∃ b, q.bloom_level = some b ∧ b ∈ BLOOM_LEVELS := by
  intro k
  induction k with
  | zero => intro i t q hq; simp [genLoop] at hq
  | succ k ih =>
    intro i t q hq
    simp only [genLoop, List.mem_cons] at hq
    rcases hq with rfl | hq
    · split <;> split <;>
        first
        | (obtain ⟨h1, -, h3, h4, h5, b, hb, hbl⟩ :=
             generate_short_fields req.topic req.grade_level i _
           exact ⟨Or.inr ⟨h1, by rw [h5]; rfl, h3, h4⟩, b, hb, hbl⟩)
        | (obtain ⟨h1, -, h3, h4, h5, b, hb, hbl⟩ :=
             generate_mcq_fields req.topic req.grade_level i _
           exact ⟨Or.inl ⟨h1, h4, h5, h3⟩, b, hb, hbl⟩)
    · exact ih (i + 1) _ q hq

/-- A tape realizing a prescribed sequence of per-item kinds in mixed mode:
`true` stands for an mcq item (kind draw 0 followed by the three draws of
`generate_mcq`), `false` for a short item (kind draw 1 followed by the one
draw of `generate_short`). -/
def buildTape : List Bool → Tape
  | [] => []
  | true :: ks => 0 :: 0 :: 0 :: 0 :: buildTape ks
  | false :: ks => 1 :: 0 :: buildTape ks

/-- In mixed mode every sequence of per-item kinds is realized by some tape:
the kind of each item is decided by that item's own draw. -/
theorem genLoop_mixed_types (topic : String) (grade : Option String) (n : Nat) :
    ∀ (ks : List Bool) (i : Nat),
      (genLoop ⟨topic, grade, n, "mixed"⟩ i ks.length (buildTape ks)).1.map Question.type
        = ks.map (fun b => if b then "mcq" else "short") := by
  intro ks
  induction ks with
  | nil => intro i; rfl
  | cons b ks ih =>
    intro i
    cases b
    · show Question.type (generate_short topic grade i (0 :: buildTape ks)).1 ::
        List.map Question.type
          (genLoop ⟨topic, grade, n, "mixed"⟩ (i + 1) ks.length (buildTape ks)).1
        = List.map (fun b => if b then "mcq" else "short") (false :: ks)
      rw [generate_short_type, ih (i + 1)]
      rfl
    · show Question.type (generate_mcq topic grade i (0 :: 0 :: 0 :: buildTape ks)).1 ::
        List.map Question.type
          (genLoop ⟨topic, grade, n, "mixed"⟩ (i + 1) ks.length (buildTape ks)).1
        = List.map (fun b => if b then "mcq" else "short") (true :: ks)
      rw [generate_mcq_type, ih (i + 1)]
      rfl

/-- `generate_mcq` never reads the grade argument. -/
theorem generate_mcq_grade (topic : String) (g g' : Option String) (idx : Nat) (t : Tape) :
    generate_mcq topic g idx t = generate_mcq topic g' idx t := rfl

/-- `generate_short` never reads the grade argument. -/
theorem generate_short_grade (topic : String) (g g' : Option String) (idx : Nat) (t : Tape) :
    generate_short topic g idx t = generate_short topic g' idx t := rfl

/-- The batch loop depends neither on `grade_level` nor on `num_questions`
of the request record (the loop bound is passed separately). -/
theorem genLoop_grade (topic : String) (g g' : Option String) (n n' : Nat) (qt : String) :
    ∀ (k i : Nat) (t : Tape),
      genLoop ⟨topic, g, n, qt⟩ i k t = genLoop ⟨topic, g', n', qt⟩ i k t := by
  intro k
  induction k with
  | zero => intro i t; rfl
  | succ k ih =>
    intro i t
    simp only [genLoop, generate_short_grade topic g g', generate_mcq_grade topic g g', ih]

/-! ### Claim theorems -/

/-- C1: for every valid request (topic non-empty, `1 ≤ n ≤ 50`,
`question_type ∈ {mcq, short, mixed}`) and every random outcome,
`generate_questions` returns exactly `n` questions, and the `i`-th question's
text begins with the ordinal marker `Q{i+1}.`.  The batch loop is a total
structurally-recursive function of the count, so it performs exactly `n`
iterations and always terminates. -/
theorem C1_batch_length_and_markers (req : GenerateRequest) (t : Tape)
    (h1 : 1 ≤ req.num_questions) (h2 : req.num_questions ≤ 50)
    (h3 : req.topic ≠ "")
    (h4 : req.question_type ∈ (["mcq", "short", "mixed"] : List String)) :
    (generate_questions req t).1.length = req.num_questions ∧
    ∀ i, i < req.num_questions →
      ∃ q r, (generate_questions req t).1[i]? = some q ∧
        q.text = "Q" ++ toString (i + 1) ++ "." ++ r := by
  constructor
  · exact genLoop_length req 0 req.num_questions t
  · intro i hi
    obtain ⟨q, r, hq, ht⟩ := genLoop_marker req req.num_questions 0 t i hi
    rw [Nat.zero_add] at ht
    exact ⟨q, r, hq, ht⟩

/-- Witness for C1 at the spec's example request (2 short questions). -/
theorem C1_batch_length_and_markers_witness :
    (generate_questions ⟨"Photosynthesis", none, 2, "short"⟩ []).1.length = 2 ∧
    ∀ i, i < 2 →
      ∃ q r, (generate_questions ⟨"Photosynthesis", none, 2, "short"⟩ []).1[i]? = some q ∧
        q.text = "Q" ++ toString (i + 1) ++ "." ++ r :=
  C1_batch_length_and_markers ⟨"Photosynthesis", none, 2, "short"⟩ [] (by decide) (by decide)
    (by decide) (by decide)

/-- C2: every MCQ question has type `"mcq"`, exactly 4 options, a correct
index strictly below 4 (and at least 0, the index being a natural number),
1 point, exactly one option equal to the "correct" construction string of
the chosen level group, pairwise-distinct distractors — the options being a
permutation of the three distractors plus the correct string — and the
option at `correct_index` is the correct string (post-shuffle index). -/
theorem C2_mcq_shape (topic : String) (grade : Option String) (idx : Nat) (t : Tape) :
    ∃ bloom verb opts ci,
      (generate_mcq topic grade idx t).1.type = "mcq" ∧
      (generate_mcq topic grade idx t).1.points = 1 ∧
      (generate_mcq topic grade idx t).1.bloom_level = some bloom ∧
      (generate_mcq topic grade idx t).1.options = some opts ∧
      (generate_mcq topic grade idx t).1.correct_index = some ci ∧
      verb ∈ verbs bloom ∧
      opts.length = 4 ∧ ci < 4 ∧
      opts.count (mcqCorrect topic verb bloom) = 1 ∧
      opts[ci]? = some (mcqCorrect topic verb bloom) ∧
      (mcqDistractors topic bloom).Pairwise (· ≠ ·) ∧
      List.Perm opts (mcqDistractors topic bloom ++ [mcqCorrect topic verb bloom]) := by
  obtain ⟨bloom, verb, opts, hbl, hverb, hperm, heq⟩ := generate_mcq_spec topic grade idx t
  have hmem : mcqCorrect topic verb bloom ∈ opts := by
    rw [hperm.mem_iff]
    simp
  have hlen : opts.length = 4 := by
    rw [hperm.length_eq]
    simp [mcqDistractors_length]
  have hcount : opts.count (mcqCorrect topic verb bloom) = 1 := by
    rw [hperm.count_eq, List.count_append,
      List.count_eq_zero.mpr (mcqCorrect_not_mem_distractors topic verb bloom)]
    simp
  refine ⟨bloom, verb, opts, opts.indexOf (mcqCorrect topic verb bloom), ?_, ?_, ?_, ?_, ?_,
    hverb, hlen, ?_, hcount, List.getElem?_indexOf hmem, mcqDistractors_pairwise topic bloom,
    hperm⟩
  · rw [heq]
  · rw [heq]
  · rw [heq]
  · rw [heq]
  · rw [heq]
  · rw [← hlen]
    exact List.indexOf_lt_length.mpr hmem

/-- C3: the MCQ stem is the "In the context of …" template exactly when the
chosen Bloom level is in the Apply/Analyze/Evaluate/Create group, and the
"Which of the following best relates to …" template otherwise. -/
theorem C3_mcq_stem (topic : String) (grade : Option String) (idx : Nat) (t : Tape) :
    ∃ bloom verb,
      (generate_mcq topic grade idx t).1.bloom_level = some bloom ∧
      verb ∈ verbs bloom ∧
      (bloom ∈ (["Apply", "Analyze", "Evaluate", "Create"] : List String) →
        (generate_mcq topic grade idx t).1.text
          = "Q" ++ toString (idx + 1) ++ ". In the context of " ++ topic ++ ", " ++ verb
              ++ " the correct option.") ∧
      (bloom ∉ (["Apply", "Analyze", "Evaluate", "Create"] : List String) →
        (generate_mcq topic grade idx t).1.text
          = "Q" ++ toString (idx + 1) ++ ". Which of the following best relates to "
              ++ topic ++ "?") := by
  obtain ⟨bloom, verb, opts, hbl, hverb, -, heq⟩ := generate_mcq_spec topic grade idx t
  refine ⟨bloom, verb, by rw [heq], hverb, ?_, ?_⟩
  · intro hb
    rw [heq]
    simp only [if_pos hb]
  · intro hb
    rw [heq]
    simp only [if_neg hb]

/-- C4: every short question has type `"short"`, no options, no correct
index, the non-empty fixed-shape reference answer, 2 points, the exact
"Briefly explain" stem, and a Bloom level from the six-level table. -/
theorem C4_short_shape (topic : String) (grade : Option String) (idx : Nat) (t : Tape) :
    (generate_short topic grade idx t).1.type = "short" ∧
    (generate_short topic grade idx t).1.options = none ∧
    (generate_short topic grade idx t).1.correct_index = none ∧
    (generate_short topic grade idx t).1.answer_text
      = some ("A 2-3 sentence explanation referencing " ++ topic ++ ".") ∧
    ("A 2-3 sentence explanation referencing " ++ topic ++ "." : String) ≠ "" ∧
    (generate_short topic grade idx t).1.points = 2 ∧
    (generate_short topic grade idx t).1.text
      = "Q" ++ toString (idx + 1) ++ ". Briefly explain the following about " ++ topic ++ ":" ∧
    ∃ b, (generate_short topic grade idx t).1.bloom_level = some b ∧ b ∈ BLOOM_LEVELS := by
  obtain ⟨h1, h2, h3, h4, h5, hb⟩ := generate_short_fields topic grade idx t
  exact ⟨h1, h3, h4, h5, append_ne_empty_of_right _ _ (by decide), h2, rfl, hb⟩

/-- C5: every question returned by `generate_questions`, for any request and
any random outcome, satisfies the type-discriminated invariant — an mcq
question populates options and correct index and has no answer text, a short
question populates the answer text and has neither options nor correct
index — and always carries one of the six Bloom levels. -/
theorem C5_type_invariant (req : GenerateRequest) (t : Tape) (q : Question)
    (hq : q ∈ (generate_questions req t).1) :
    ((q.type = "mcq" ∧ q.options.isSome = true ∧ q.correct_index.isSome = true ∧
        q.answer_text = none) ∨
     (q.type = "short" ∧ q.answer_text.isSome = true ∧ q.options = none ∧
        q.correct_index = none)) ∧
    ∃ b, q.bloom_level = some b ∧ b ∈ BLOOM_LEVELS :=
  genLoop_invariant req req.num_questions 0 t q hq

/-- Witness for C5 on a concrete one-question mcq request. -/
theorem C5_type_invariant_witness :
    (((generate_mcq "X" none 0 []).1.type = "mcq" ∧
        (generate_mcq "X" none 0 []).1.options.isSome = true ∧
        (generate_mcq "X" none 0 []).1.correct_index.isSome = true ∧
        (generate_mcq "X" none 0 []).1.answer_text = none) ∨
     ((generate_mcq "X" none 0 []).1.type = "short" ∧
        (generate_mcq "X" none 0 []).1.answer_text.isSome = true ∧
        (generate_mcq "X" none 0 []).1.options = none ∧
        (generate_mcq "X" none 0 []).1.correct_index = none)) ∧
    ∃ b, (generate_mcq "X" none 0 []).1.bloom_level = some b ∧ b ∈ BLOOM_LEVELS :=
  C5_type_invariant ⟨"X", none, 1, "mcq"⟩ [] (generate_mcq "X" none 0 []).1
    (List.mem_singleton_self _)

/-- C6: the assembled test derives its title from the title-cased topic and
the count, its description from the question type and topic, its duration as
`max 10 (n * 2)`, the fixed tags plus topic, subject = topic, grade level
passed through unchanged, and exactly the generated question batch in
order.  Assembly is a pure function of the request and the generated
questions, hence deterministic. -/
theorem C6_test_assembly (req : GenerateRequest) (t : Tape) :
    (generate_test req t).1.title
      = pyTitle req.topic ++ " - " ++ toString req.num_questions ++ " Question Test" ∧
    (generate_test req t).1.description
      = some ("Auto-generated " ++ req.question_type ++ " test about " ++ req.topic) ∧
    (generate_test req t).1.duration_minutes = some (max 10 (req.num_questions * 2)) ∧
    (generate_test req t).1.tags = ["auto", "generated", req.topic] ∧
    (generate_test req t).1.subject = some req.topic ∧
    (generate_test req t).1.grade_level = req.grade_level ∧
    (generate_test req t).1.questions = (generate_questions req t).1 :=
  ⟨rfl, rfl, rfl, rfl, rfl, rfl, rfl⟩

/-- C7: with `question_type = "mcq"` (resp. `"short"`) every generated item
is of exactly that kind; with `question_type = "mixed"` the kind of each
item is resolved by that item's own draw from the random source, so every
sequence of per-item kinds is realized by some random outcome — which a
batch-level choice or a fixed 50/50 split could not produce. -/
theorem C7_mixed_per_item (topic : String) (grade : Option String) :
    (∀ (n : Nat) (t : Tape) (q : Question),
        q ∈ (generate_questions ⟨topic, grade, n, "mcq"⟩ t).1 → q.type = "mcq") ∧
    (∀ (n : Nat) (t : Tape) (q : Question),
        q ∈ (generate_questions ⟨topic, grade, n, "short"⟩ t).1 → q.type = "short") ∧
    (∀ ks : List Bool,
        (generate_questions ⟨topic, grade, ks.length, "mixed"⟩ (buildTape ks)).1.map
          Question.type = ks.map (fun b => if b then "mcq" else "short")) := by
  refine ⟨?_, ?_, ?_⟩
  · intro n t q hq
    exact genLoop_all_mcq ⟨topic, grade, n, "mcq"⟩
      (show ("mcq" : String) ≠ "mixed" by decide)
      (show ("mcq" : String) ≠ "short" by decide) n 0 t q hq
  · intro n t q hq
    exact genLoop_all_short ⟨topic, grade, n, "short"⟩ rfl n 0 t q hq
  · intro ks
    exact genLoop_mixed_types topic grade ks.length ks 0

/-- Witness for C7: on a two-item mixed request, the kind vector
mcq-then-short is realized by a concrete tape. -/
theorem C7_mixed_per_item_witness :
    (generate_questions ⟨"X", none, 2, "mixed"⟩ (buildTape [true, false])).1.map
      Question.type = ["mcq", "short"] := by
  have h := (C7_mixed_per_item "X" none).2.2 [true, false]
  simpa using h

/-- C8 counterexample: a request with an empty topic and a question type
outside the documented enumeration passes the boundary validation, so not
every precondition violation is rejected. -/
theorem C8_counterexample :
    parseGenerateRequest "" none 5 "essay"
      = some { topic := "", grade_level := none, num_questions := 5,
               question_type := "essay" } := by
  rfl

/-- C8 (amended): the boundary validates only the `num_questions` bounds —
it accepts a request exactly when `1 ≤ num_questions ≤ 50`, in particular
accepting 1 and 50 and rejecting 0 and 51; the topic (even empty) and the
question type (any string) are not checked, and the generation core raises
no domain-specific errors (it is a total function). -/
theorem C8_boundary_validation (topic : String) (grade : Option String) (n : Int)
    (qt : String) :
    ((parseGenerateRequest topic grade n qt).isSome = true ↔ 1 ≤ n ∧ n ≤ 50) ∧
    (parseGenerateRequest topic grade 1 qt).isSome = true ∧
    (parseGenerateRequest topic grade 50 qt).isSome = true ∧
    parseGenerateRequest topic grade 0 qt = none ∧
    parseGenerateRequest topic grade 51 qt = none := by
  unfold parseGenerateRequest
  refine ⟨?_, by norm_num, by norm_num, by norm_num, by norm_num⟩
  split <;> simp_all

/-- C9: `grade_level` never influences the generated questions — two runs
identical except for `grade_level`, driven from the same random-source
state, produce identical question lists, and the assembled tests differ only
in the `grade_level` field carried through. -/
theorem C9_grade_level_noninterference (topic : String) (g1 g2 : Option String)
    (n : Nat) (qt : String) (t : Tape) :
    (generate_questions ⟨topic, g1, n, qt⟩ t).1
      = (generate_questions ⟨topic, g2, n, qt⟩ t).1 ∧
    (generate_test ⟨topic, g1, n, qt⟩ t).1
      = { (generate_test ⟨topic, g2, n, qt⟩ t).1 with grade_level := g1 } := by
  have hq : genLoop ⟨topic, g1, n, qt⟩ 0 n t = genLoop ⟨topic, g2, n, qt⟩ 0 n t :=
    genLoop_grade topic g1 g2 n n qt n 0 t
  constructor
  · show (genLoop ⟨topic, g1, n, qt⟩ 0 n t).1 = (genLoop ⟨topic, g2, n, qt⟩ 0 n t).1
    rw [hq]
  · simp only [generate_test, generate_questions]
    rw [hq]

/-- C10: any question type other than `"short"` and `"mixed"` — for example
`"essay"` or the empty string — silently falls back to the mcq branch of the
per-item dispatch: no error is raised (the generator is total) and every one
of the `n` generated questions is an mcq. -/
theorem C10_unknown_type_falls_back_to_mcq (topic : String) (grade : Option String)
    (n : Nat) (qt : String) (t : Tape) (h1 : qt ≠ "short") (h2 : qt ≠ "mixed") :
    (generate_questions ⟨topic, grade, n, qt⟩ t).1.length = n ∧
    ∀ q ∈ (generate_questions ⟨topic, grade, n, qt⟩ t).1, q.type = "mcq" := by
  refine ⟨genLoop_length _ 0 n t, ?_⟩
  intro q hq
  exact genLoop_all_mcq ⟨topic, grade, n, qt⟩ h2 h1 n 0 t q hq

/-- Witness for C10 at the undocumented question type `"essay"`. -/
theorem C10_unknown_type_falls_back_to_mcq_witness :
    (generate_questions ⟨"X", none, 1, "essay"⟩ []).1.length = 1 ∧
    ∀ q ∈ (generate_questions ⟨"X", none, 1, "essay"⟩ []).1, q.type = "mcq" :=
  C10_unknown_type_falls_back_to_mcq "X" none 1 "essay" [] (by decide) (by decide)

end TestMaker
